import Mathlib

/-!
Verification of the upload-session state machine of `src/bot.js`
(AS-Static-hosting-Bot): a shallow embedding of the session object, the
`finish_upload` callback handler, the `document` handler (file staging and
archive auto-finalize), the `text` handler (site-name entry and admin
slug entry), and the `saveUserSite` record-store helper, together with
theorems settling the specification claims about them.

Conventions of the embedding:
* `ctx.session` is `Option Session`; JS `null`/absent is `none`.  A JS
  session is a loose bag of fields, so each field a handler may leave
  unset is an `Option`.
* Outbound chat calls (`reply`, `answerCbQuery`, `editMessageText`,
  `deleteMessage`), the deploy request and the record-store save call are
  recorded as an ordered `Effect` list.
* The outcome of the remote deploy call (`uploadToHosting`), of the file
  download and of the record-store save are oracles passed as arguments,
  since they are external I/O.
* A JS runtime `TypeError` that escapes a handler is `Except.error`;
  Telegraf then routes it to `bot.catch`, modelled by the dispatch
  wrapper.
-/

/-- One staged file, as pushed onto `ctx.session.files` in `bot.js`:
the Telegram file name and the base64-encoded content. -/
structure StagedFile where
  fileName : String
  fileData : String
  deriving Repr, DecidableEq

/-- The `ctx.session` object.  `state` is one of `"waiting_for_name"`,
`"waiting_for_files"`, `"admin_delete"`, `"admin_restore"`.  Upload
sessions carry `uploadType` (`"zip"` or `"multiple"`) and `files`;
admin sub-sessions carry only `state`, hence the `Option` fields. -/
structure Session where
  state : String
  uploadType : Option String := none
  files : Option (List StagedFile) := none
  siteName : Option String := none
  deriving Repr, DecidableEq

/-- An incoming Telegram document: `file_name` and `file_size` as reported
by the transport. -/
structure TgDocument where
  file_name : String
  file_size : Nat
  deriving Repr, DecidableEq

/-- The argument pair of `uploadToHosting(siteName, files)`.  `siteName`
is destructured from the session, hence possibly absent. -/
structure DeployRequest where
  siteName : Option String
  files : List StagedFile
  deriving Repr, DecidableEq

/-- The argument record of `saveUserSite(userId, {...})`. -/
structure SavedRecord where
  userId : Int
  name : Option String
  slug : String
  url : String
  filesCount : Nat
  deriving Repr, DecidableEq

/-- Observable actions a handler performs, in order. -/
inductive Effect where
  | reply (text : String)
  | answerCb (text : String)
  | editMessage (text : String)
  | deleteMessage
  | deployCall (req : DeployRequest)
  | saveCall (rec : SavedRecord)
  deriving Repr, DecidableEq

/-- A JS runtime error escaping a handler (here: property access on
`undefined`, as in `ctx.session.files.length` with `files` absent). -/
inductive JsError where
  | typeError
  deriving Repr, DecidableEq

/-- Outcome oracle for the `uploadToHosting` call: the HTTP response body
`{ok: true, slug, url}`, `{ok: false, error}`, or an axios throw
(timeout / network), whose rendered message
(`error.response?.data?.error || error.message`) is carried as a string. -/
inductive DeployOutcome where
  | ok (slug url : String)
  | notOk (error : String)
  | transportError (message : String)
  deriving Repr, DecidableEq

/-- Outcome oracle for `saveUserSite`: the mongoose `save()` either
succeeds or throws (e.g. duplicate-key on the unique `slug` index);
`saveUserSite` re-throws, so the throw propagates to its caller. -/
inductive SaveOutcome where
  | ok
  | threw (message : String)
  deriving Repr, DecidableEq

/-- Outcome oracle for `downloadTelegramFile`: the base64 content on
success, or a throw. -/
inductive DownloadOutcome where
  | ok (base64Data : String)
  | failure (message : String)
  deriving Repr, DecidableEq

/-- A handler's result: the session it leaves behind and its effects. -/
structure HandlerResult where
  session : Option Session
  effects : List Effect
  deriving Repr, DecidableEq

/- Message texts from `bot.js` (only the ones the handlers emit on the
paths modelled here). -/

def noActiveSessionMsg : String :=
  "⚠️ Please start an upload first using the menu buttons!"

def fileTooLargeMsg : String :=
  "❌ File too large! Maximum size is 50MB."

def downloadFailedMsg : String :=
  "❌ Failed to download file. Please try again."

def genericErrorMsg : String :=
  "❌ An error occurred. Please try again later."

def noFilesYetMsg : String :=
  "No files uploaded yet!"

def deployingCbMsg : String :=
  "Deploying your site..."

def deployWaitMsg : String :=
  "🚀 *Deploying your site...*\n\n⏳ Please wait..."

def downloadingMsg (fileName : String) : String :=
  "⏳ Downloading *" ++ fileName ++ "*..."

def deployFailedBusinessMsg (error : String) : String :=
  "❌ Deployment failed: " ++ error

def deployFailedCaughtMsg (message : String) : String :=
  "❌ *Deployment Failed*\n\nError: " ++ message

def successMessage (url slug : String) (filesCount : Nat) : String :=
  "🎉 *Deployment Successful!*\n\n🌐 Your site is live at:\n" ++ url ++
  "\n\n📝 Slug: `" ++ slug ++ "`\n📦 Files: " ++ toString filesCount ++
  "\n\nClick the button below to view your site!"

def zipSuccessMessage (url slug : String) : String :=
  "🎉 *Deployment Successful!*\n\n🌐 Your site is live at:\n" ++ url ++
  "\n\n📝 Slug: `" ++ slug ++ "`\n\nClick the button below to view your site!"

/-- The per-file acknowledgement in MultiFile mode.  `bot.js` renders the
size as `(fileSize / 1024).toFixed(2)` KB; it is rendered here from the
integer byte count (no claim inspects this text). -/
def fileUploadedMsg (fileName : String) (fileSize : Nat) (total : Nat) : String :=
  "✅ *" ++ fileName ++ "* uploaded! (" ++ toString (fileSize / 1024) ++
  " KB)\n\n📦 Total files: *" ++ toString total ++
  "*\n\nSend more files or click \"Finish Upload\" when done."

def siteDeletedMsg (slug : String) : String :=
  "✅ Site \"" ++ slug ++ "\" deleted successfully!"

def siteRestoredMsg (slug : String) : String :=
  "✅ Site \"" ++ slug ++ "\" restored successfully!"

def siteNotFoundMsg (slug : String) : String :=
  "❌ Site \"" ++ slug ++ "\" not found."

def zipNamePromptMsg (siteName : String) : String :=
  "✅ Site name: *" ++ siteName ++
  "*\n\n📦 Now send your ZIP file containing all site files."

def multiNamePromptMsg (siteName : String) : String :=
  "✅ Site name: *" ++ siteName ++
  "*\n\n📁 Now send your files one by one.\nWhen done, click \"Finish Upload\" button."

/-- JS `String.prototype.trim()`, over the character list (whitespace in
the `Char.isWhitespace` sense; the messages here are ASCII). -/
def jsTrim (s : String) : String :=
  ⟨((s.data.dropWhile Char.isWhitespace).reverse.dropWhile Char.isWhitespace).reverse⟩

/-- JS `text.startsWith("/")`: the first character is the command
prefix. -/
def jsStartsWithSlash (s : String) : Bool :=
  match s.data with
  | [] => false
  | c :: _ => c = '/'

/-- The handler `bot.action("finish_upload")` from `bot.js`.

```
if (!ctx.session || ctx.session.files.length === 0) {
  return ctx.answerCbQuery("No files uploaded yet!", ...);
}
const { siteName, files } = ctx.session;
try {
  await ctx.answerCbQuery("Deploying your site...");
  await ctx.editMessageText("🚀 *Deploying...*");
  const result = await uploadToHosting(siteName, files);
  if (result.ok) {
    await saveUserSite(userId, {name, slug, url, filesCount});
    ctx.editMessageText(successMessage);
  } else {
    ctx.editMessageText(`❌ Deployment failed: ...`);
  }
  ctx.session = null;
} catch (error) {
  ctx.editMessageText(`❌ *Deployment Failed*...`);
  ctx.session = null;
}
```

The guard dereferences `ctx.session.files.length` outside the try block:
when the session exists but has no `files` field (admin sub-sessions),
this is a `TypeError` on `undefined` that escapes the handler. -/
def finish_upload (session : Option Session) (userId : Int)
    (deployOutcome : DeployOutcome) (saveOutcome : SaveOutcome) :
    Except JsError HandlerResult :=
  match session with
  | none => .ok ⟨none, [.answerCb noFilesYetMsg]⟩
  | some s =>
    match s.files with
    | none => .error .typeError
    | some fs =>
      if fs.length = 0 then
        .ok ⟨some s, [.answerCb noFilesYetMsg]⟩
      else
        let pre : List Effect :=
          [.answerCb deployingCbMsg, .editMessage deployWaitMsg,
           .deployCall ⟨s.siteName, fs⟩]
        match deployOutcome with
        | .ok slug url =>
          let rec' : SavedRecord := ⟨userId, s.siteName, slug, url, fs.length⟩
          match saveOutcome with
          | .ok =>
            .ok ⟨none, pre ++ [.saveCall rec',
                               .editMessage (successMessage url slug fs.length)]⟩
          | .threw m =>
            .ok ⟨none, pre ++ [.saveCall rec',
                               .editMessage (deployFailedCaughtMsg m)]⟩
        | .notOk e =>
          .ok ⟨none, pre ++ [.editMessage (deployFailedBusinessMsg e)]⟩
        | .transportError m =>
          .ok ⟨none, pre ++ [.editMessage (deployFailedCaughtMsg m)]⟩

/-- The handler `bot.on("document")` from `bot.js`.

```
if (!ctx.session || ctx.session.state !== "waiting_for_files") {
  return ctx.reply("⚠️ Please start an upload first ...");
}
const fileSize = document.file_size;
if (fileSize > 50 * 1024 * 1024) {
  return ctx.reply("❌ File too large! Maximum size is 50MB.");
}
try {
  await ctx.reply(`⏳ Downloading *${fileName}*...`);
  const fileBuffer = await downloadTelegramFile(...);
  ctx.session.files.push({fileName, fileData: base64});
  await ctx.telegram.deleteMessage(...);
  if (ctx.session.uploadType === "zip") {
    await ctx.reply("🚀 *Deploying...*");
    const result = await uploadToHosting(siteName, files);
    if (result.ok) { await saveUserSite(...); ctx.reply(success); }
    else { ctx.reply(`❌ Deployment failed: ...`); }
    ctx.session = null;
  } else {
    ctx.reply(`✅ *${fileName}* uploaded! ...`);
  }
} catch (error) {
  ctx.reply("❌ Failed to download file. Please try again.");
}
```

Everything after the size guard sits inside the try, so a download throw,
a deploy transport throw, or a `saveUserSite` re-throw all land in the
catch, which replies the download-failure message and does NOT clear the
session; after the push the file is already staged. -/
def on_document (session : Option Session) (userId : Int) (doc : TgDocument)
    (download : DownloadOutcome) (deployOutcome : DeployOutcome)
    (saveOutcome : SaveOutcome) : Except JsError HandlerResult :=
  match session with
  | none => .ok ⟨none, [.reply noActiveSessionMsg]⟩
  | some s =>
    if s.state ≠ "waiting_for_files" then
      .ok ⟨some s, [.reply noActiveSessionMsg]⟩
    else if doc.file_size > 50 * 1024 * 1024 then
      .ok ⟨some s, [.reply fileTooLargeMsg]⟩
    else
      match download with
      | .failure _ =>
        .ok ⟨some s, [.reply (downloadingMsg doc.file_name),
                      .reply downloadFailedMsg]⟩
      | .ok base64Data =>
        match s.files with
        | none =>
          -- `ctx.session.files.push` on an absent `files` throws inside
          -- the try; the catch replies and the session is untouched.
          .ok ⟨some s, [.reply (downloadingMsg doc.file_name),
                        .reply downloadFailedMsg]⟩
        | some fs =>
          let f : StagedFile := ⟨doc.file_name, base64Data⟩
          let fs' := fs ++ [f]
          let s' : Session := { s with files := some fs' }
          if s.uploadType = some "zip" then
            let pre : List Effect :=
              [.reply (downloadingMsg doc.file_name), .deleteMessage,
               .reply deployWaitMsg, .deployCall ⟨s.siteName, fs'⟩]
            match deployOutcome with
            | .ok slug url =>
              let rec' : SavedRecord := ⟨userId, s.siteName, slug, url, fs'.length⟩
              match saveOutcome with
              | .ok =>
                .ok ⟨none, pre ++ [.saveCall rec',
                                   .reply (zipSuccessMessage url slug)]⟩
              | .threw _ =>
                -- saveUserSite re-throws; the document catch absorbs it,
                -- replying the download-failure text; session survives.
                .ok ⟨some s', pre ++ [.saveCall rec', .reply downloadFailedMsg]⟩
            | .notOk e =>
              .ok ⟨none, pre ++ [.reply (deployFailedBusinessMsg e)]⟩
            | .transportError _ =>
              -- axios throw from uploadToHosting; absorbed by the same
              -- catch; session survives with the file staged.
              .ok ⟨some s', pre ++ [.reply downloadFailedMsg]⟩
          else
            .ok ⟨some s', [.reply (downloadingMsg doc.file_name), .deleteMessage,
                           .reply (fileUploadedMsg doc.file_name doc.file_size
                                     fs'.length)]⟩

/-- The handler `bot.on("text")` from `bot.js`: admin slug entry for delete/restore,
then site-name entry.  `dbDeleted` / `dbRestored` are the booleans
returned by `deleteSiteBySlug` / `restoreSiteBySlug`; `apiDeleteOk` /
`apiRestoreOk` is the truthiness of `apiResponse?.data?.ok` of the
best-effort API call (false also covers the caught-null case). -/
def on_text (session : Option Session) (isAdminUser : Bool) (text : String)
    (dbDeleted apiDeleteOk dbRestored apiRestoreOk : Bool) : HandlerResult :=
  match session with
  | none => ⟨none, []⟩
  | some s =>
    if s.state = "admin_delete" then
      if !isAdminUser then ⟨some s, []⟩
      else
        let slug := jsTrim text
        let verdict : Effect :=
          if dbDeleted || apiDeleteOk then .reply (siteDeletedMsg slug)
          else .reply (siteNotFoundMsg slug)
        ⟨none, [.reply "🗑️ Deleting site...", verdict]⟩
    else if s.state = "admin_restore" then
      if !isAdminUser then ⟨some s, []⟩
      else
        let slug := jsTrim text
        let verdict : Effect :=
          if dbRestored || apiRestoreOk then .reply (siteRestoredMsg slug)
          else .reply (siteNotFoundMsg slug)
        ⟨none, [.reply "♻️ Restoring site...", verdict]⟩
    else if s.state ≠ "waiting_for_name" then
      ⟨some s, []⟩
    else
      let siteName := jsTrim text
      if jsStartsWithSlash siteName then
        ⟨some s, []⟩
      else
        let s' : Session :=
          { s with siteName := some siteName, state := "waiting_for_files" }
        if s.uploadType = some "zip" then
          ⟨some s', [.reply (zipNamePromptMsg siteName)]⟩
        else
          ⟨some s', [.reply (multiNamePromptMsg siteName)]⟩

/-- The `bot.catch` handler, `(err, ctx) => ctx.reply("❌ An error occurred...")`:
the top-level Telegraf error handler replies a generic message and does
not touch the session. -/
def bot_catch (session : Option Session) : HandlerResult :=
  ⟨session, [.reply genericErrorMsg]⟩

/-- The router around `finish_upload`: a JS error escaping the handler is
absorbed by `bot.catch`. -/
def dispatch_finish_upload (session : Option Session) (userId : Int)
    (deployOutcome : DeployOutcome) (saveOutcome : SaveOutcome) : HandlerResult :=
  match finish_upload session userId deployOutcome saveOutcome with
  | .ok r => r
  | .error _ => bot_catch session

/-- The session component of a normally-returning handler run
(`none` when the handler threw). -/
def resultSession (r : Except JsError HandlerResult) : Option (Option Session) :=
  match r with
  | .ok h => some h.session
  | .error _ => none

/-- The effect list of a normally-returning handler run. -/
def resultEffects (r : Except JsError HandlerResult) : Option (List Effect) :=
  match r with
  | .ok h => some h.effects
  | .error _ => none

/-- The deploy requests issued in an effect list, in order. -/
def deployCalls (effs : List Effect) : List DeployRequest :=
  effs.filterMap fun e =>
    match e with
    | .deployCall r => some r
    | _ => none

/-- The record-store save invocations in an effect list, in order. -/
def saveCalls (effs : List Effect) : List SavedRecord :=
  effs.filterMap fun e =>
    match e with
    | .saveCall r => some r
    | _ => none

/-- True when the deploy attempt returns to straight-line code rather
than jumping to a catch: the response is a business failure, or a
success whose record save also succeeds. -/
def deployCompletes (d : DeployOutcome) (sv : SaveOutcome) : Bool :=
  match d, sv with
  | .notOk _, _ => true
  | .ok _ _, .ok => true
  | .ok _ _, .threw _ => false
  | .transportError _, _ => false

/-- A persisted `UserSite` document, per the mongoose schema in
`bot.js` (`userId`, `name`, `slug` with a unique index, `url`,
`filesCount`, `status ∈ {active, deleted}`). -/
structure UserSiteDoc where
  userId : Int
  name : Option String
  slug : String
  url : String
  filesCount : Nat
  status : String := "active"
  deriving Repr, DecidableEq

/-- Modelled from the spec: the Record Store execution (MongoDB, outside
`src/`) behind the schema's `slug: { unique: true }` index — the spec
states slug is globally unique, enforced by the store, with collisions
surfacing as a creation failure rather than a silent overwrite.  The
store is a document list; inserting a duplicate slug throws a
duplicate-key error. -/
def storeInsert (store : List UserSiteDoc) (doc : UserSiteDoc) :
    Except String (List UserSiteDoc) :=
  if store.any (fun d => d.slug == doc.slug) then
    .error "duplicate key"
  else
    .ok (store ++ [doc])

/-- Helper `saveUserSite(userId, siteData)` from `bot.js`: builds the new
`UserSite` document (status defaulting to active) and saves it; on error
it logs and re-throws, so the failure propagates to the caller. -/
def saveUserSite (store : List UserSiteDoc) (userId : Int)
    (name : Option String) (slug url : String) (filesCount : Nat) :
    Except String (List UserSiteDoc) :=
  storeInsert store ⟨userId, name, slug, url, filesCount, "active"⟩

/-- The store contents after a `saveUserSite` attempt: unchanged when the
save threw. -/
def storeAfterSave (store : List UserSiteDoc) (userId : Int)
    (name : Option String) (slug url : String) (filesCount : Nat) :
    List UserSiteDoc :=
  match saveUserSite store userId name slug url filesCount with
  | .ok newStore => newStore
  | .error _ => store

def enterSiteNameMsg : String :=
  "📝 *Enter Your Site Name*\n\nExample: `My Portfolio`\n\nThis will be used to create your URL."

/-- The handler `bot.action("upload_files")`: replaces the session with a fresh
MultiFile one (`{state: waiting_for_name, uploadType: multiple, files: []}`). -/
def upload_files_action : HandlerResult :=
  ⟨some ⟨"waiting_for_name", some "multiple", some [], none⟩,
   [.editMessage enterSiteNameMsg]⟩

/-- The handler `bot.action("upload_zip")`: replaces the session with a fresh Archive
one (`{state: waiting_for_name, uploadType: zip, files: []}`). -/
def upload_zip_action : HandlerResult :=
  ⟨some ⟨"waiting_for_name", some "zip", some [], none⟩,
   [.editMessage enterSiteNameMsg]⟩

/-- The staged form of one document submission (name plus downloaded
base64 content). -/
def stage (p : TgDocument × String) : StagedFile :=
  ⟨p.1.file_name, p.2⟩

/-- Runs the `document` handler over a list of submissions in order
(each download succeeding with the paired base64 content), threading the
session and concatenating the effects. -/
def runDocs (session : Option Session) (userId : Int)
    (subs : List (TgDocument × String)) (d : DeployOutcome) (sv : SaveOutcome) :
    Except JsError (Option Session × List Effect) :=
  match subs with
  | [] => .ok (session, [])
  | (doc, b64) :: rest =>
    match on_document session userId doc (.ok b64) d sv with
    | .error e => .error e
    | .ok r =>
      match runDocs r.session userId rest d sv with
      | .error e => .error e
      | .ok (s2, effs) => .ok (s2, r.effects ++ effs)

/-- End-to-end MultiFile conversation: the `upload_files` button, then
the site-name text message, then a sequence of document submissions,
then the `finish_upload` button. -/
def multiScenario (nameText : String) (userId : Int) (adm : Bool)
    (subs : List (TgDocument × String)) (d : DeployOutcome) (sv : SaveOutcome) :
    Except JsError (Option Session × List Effect) :=
  let r0 := upload_files_action
  let r1 := on_text r0.session adm nameText false false false false
  match runDocs r1.session userId subs d sv with
  | .error e => .error e
  | .ok (s2, effs2) =>
    match finish_upload s2 userId d sv with
    | .error e => .error e
    | .ok r3 => .ok (r3.session, r0.effects ++ r1.effects ++ effs2 ++ r3.effects)

/-- C2: a document whose reported size exceeds 50 MiB is rejected with
the FileTooLarge reply; nothing is appended to the staged files and the
session (every field) is returned unchanged. -/
theorem C2_oversize_rejected (s : Session) (userId : Int) (doc : TgDocument)
    (download : DownloadOutcome) (d : DeployOutcome) (sv : SaveOutcome)
    (hstate : s.state = "waiting_for_files")
    (hsize : 50 * 1024 * 1024 < doc.file_size) :
    on_document (some s) userId doc download d sv =
      .ok ⟨some s, [.reply fileTooLargeMsg]⟩ := by
  simp [on_document, hstate, hsize]

/-- Witness for C2 at a 60 MB submission. -/
theorem C2_witness :
    on_document (some ⟨"waiting_for_files", some "multiple", some [], some "w"⟩)
        21 ⟨"big.bin", 60000000⟩ (.ok "QQ==") (.notOk "x") .ok =
      .ok ⟨some ⟨"waiting_for_files", some "multiple", some [], some "w"⟩,
           [.reply fileTooLargeMsg]⟩ :=
  C2_oversize_rejected ⟨"waiting_for_files", some "multiple", some [], some "w"⟩
    21 ⟨"big.bin", 60000000⟩ (.ok "QQ==") (.notOk "x") .ok rfl (by norm_num)

/-- C3: `finish_upload` on a session in `waiting_for_files` with an empty
staged-file list answers the NothingStaged notice, issues no deploy call
and no save, and leaves the session (all fields) unchanged. -/
theorem C3_empty_staging_rejected (s : Session) (userId : Int)
    (d : DeployOutcome) (sv : SaveOutcome)
    (_hstate : s.state = "waiting_for_files") (hfiles : s.files = some []) :
    finish_upload (some s) userId d sv = .ok ⟨some s, [.answerCb noFilesYetMsg]⟩ := by
  simp [finish_upload, hfiles]

/-- Witness for C3. -/
theorem C3_witness :
    finish_upload (some ⟨"waiting_for_files", some "multiple", some [], some "w3"⟩)
        22 (.ok "s" "u") .ok =
      .ok ⟨some ⟨"waiting_for_files", some "multiple", some [], some "w3"⟩,
           [.answerCb noFilesYetMsg]⟩ :=
  C3_empty_staging_rejected ⟨"waiting_for_files", some "multiple", some [], some "w3"⟩
    22 (.ok "s" "u") .ok rfl rfl

/-- C9: saving a record whose slug already exists in the store fails with
the duplicate-key error (re-thrown to the caller) and the store is left
unchanged — the existing record is not overwritten. -/
theorem C9_slug_unique (store : List UserSiteDoc) (d : UserSiteDoc) (userId : Int)
    (name : Option String) (slug url : String) (filesCount : Nat)
    (hd : d ∈ store) (hslug : d.slug = slug) :
    saveUserSite store userId name slug url filesCount = .error "duplicate key"
    ∧ storeAfterSave store userId name slug url filesCount = store := by
  have hany : store.any (fun x => x.slug == slug) = true :=
    List.any_eq_true.mpr ⟨d, hd, by simp [hslug]⟩
  refine ⟨?_, ?_⟩
  · simp [saveUserSite, storeInsert, hany]
  · simp [storeAfterSave, saveUserSite, storeInsert, hany]

/-- Witness for C9 on a one-record store. -/
theorem C9_witness :
    saveUserSite [⟨5, some "old", "taken", "https://h/taken", 1, "active"⟩]
        6 (some "new") "taken" "https://h/taken2" 2 = .error "duplicate key"
    ∧ storeAfterSave [⟨5, some "old", "taken", "https://h/taken", 1, "active"⟩]
        6 (some "new") "taken" "https://h/taken2" 2
      = [⟨5, some "old", "taken", "https://h/taken", 1, "active"⟩] :=
  C9_slug_unique [⟨5, some "old", "taken", "https://h/taken", 1, "active"⟩]
    ⟨5, some "old", "taken", "https://h/taken", 1, "active"⟩
    6 (some "new") "taken" "https://h/taken2" 2 (by simp) rfl

/-- C10: `finish_upload` on a session that has no `files` field (the
admin sub-sessions) does not take the NothingStaged branch: the guard
dereference throws a TypeError that escapes the handler; the router's
catch-all replies the generic error message and the admin session is
left unchanged. -/
theorem C10_admin_finish_typeerror (s : Session) (userId : Int)
    (d : DeployOutcome) (sv : SaveOutcome) (hfiles : s.files = none) :
    finish_upload (some s) userId d sv = .error .typeError
    ∧ dispatch_finish_upload (some s) userId d sv
        = ⟨some s, [.reply genericErrorMsg]⟩ := by
  refine ⟨?_, ?_⟩
  · simp [finish_upload, hfiles]
  · simp [dispatch_finish_upload, finish_upload, hfiles, bot_catch]

/-- Witness for C10 on an `admin_delete` sub-session. -/
theorem C10_witness :
    finish_upload (some ⟨"admin_delete", none, none, none⟩) 23 (.ok "s" "u") .ok
      = .error .typeError
    ∧ dispatch_finish_upload (some ⟨"admin_delete", none, none, none⟩) 23 (.ok "s" "u") .ok
      = ⟨some ⟨"admin_delete", none, none, none⟩, [.reply genericErrorMsg]⟩ :=
  C10_admin_finish_typeerror ⟨"admin_delete", none, none, none⟩ 23 (.ok "s" "u") .ok rfl

/-- C1 counterexample: in Archive mode a deploy transport error is
absorbed by the document handler's download catch, which does NOT clear
the session — after the deploy attempt the session is still
`waiting_for_files` with the archive staged, not Idle, refuting the
claim that every deploy attempt ends with the session cleared. -/
theorem C1_counterexample :
    resultSession (on_document
        (some ⟨"waiting_for_files", some "zip", some [], some "mysite"⟩)
        1 ⟨"site.zip", 1000⟩ (.ok "QUJD") (.transportError "timeout") .ok)
      ≠ some none := by decide

/-- C4 counterexample: in Archive mode with a single valid file, when the
deploy returns ok but the record save throws (duplicate slug), the
re-thrown error lands in the download catch and the session is NOT
reset, refuting the claim that the session is reset after the
single-file auto-finalize. -/
theorem C4_counterexample :
    resultSession (on_document
        (some ⟨"waiting_for_files", some "zip", some [], some "portfolio"⟩)
        7 ⟨"bundle.zip", 2048⟩ (.ok "Wg==")
        (.ok "slugx" "https://host/slugx") (.threw "duplicate key"))
      ≠ some none := by decide

/-- C8 counterexample: a message whose trimmed text is empty is accepted
as a site name — `siteName` IS set to the empty string, the session
transitions to `waiting_for_files`, and the reply is the name-accepted
prompt, not a retry prompt; no local validation rejects the empty
name. -/
theorem C8_counterexample :
    on_text (some ⟨"waiting_for_name", some "zip", some [], none⟩)
        false " " false false false false
      = ⟨some ⟨"waiting_for_files", some "zip", some [], some ""⟩,
         [.reply (zipNamePromptMsg "")]⟩ := by decide

/-- C8 (amended): a message whose trimmed text is empty, received in
`waiting_for_name`, is accepted like any non-command text — `siteName`
is set to the empty string and the session transitions to
`waiting_for_files`; the code performs no empty-name validation. -/
theorem C8_amended (s : Session) (adm : Bool) (text : String)
    (b1 b2 b3 b4 : Bool)
    (hstate : s.state = "waiting_for_name") (htrim : jsTrim text = "") :
    (on_text (some s) adm text b1 b2 b3 b4).session
      = some { s with siteName := some "", state := "waiting_for_files" } := by
  have hslash : jsStartsWithSlash "" = false := rfl
  simp [on_text, hstate, htrim, hslash]
  split <;> rfl

/-- Witness for C8 (amended) on a whitespace-only message. -/
theorem C8_amended_witness :
    (on_text (some ⟨"waiting_for_name", some "multiple", some [], none⟩)
        false "  " false false false false).session
      = some ⟨"waiting_for_files", some "multiple", some [], some ""⟩ :=
  C8_amended ⟨"waiting_for_name", some "multiple", some [], none⟩
    false "  " false false false false rfl (by decide)

/-- C1 (amended): the explicit `finish_upload` finalize always clears the
session to Idle, for every deploy outcome (success, ok=false, transport
throw) and every save outcome; the Archive auto-finalize clears the
session only when the deploy attempt completes without a throw (ok=false
from the server, or ok with a successful record save) — a transport
error or a save throw there is absorbed by the download catch and leaves
the session staged (see the counterexample). -/
theorem C1_amended :
    (∀ (s : Session) (fs : List StagedFile) (userId : Int)
       (d : DeployOutcome) (sv : SaveOutcome),
       s.files = some fs → fs ≠ [] →
       resultSession (finish_upload (some s) userId d sv) = some none)
    ∧ (∀ (s : Session) (userId : Int) (doc : TgDocument) (b64 : String)
         (fs : List StagedFile) (d : DeployOutcome) (sv : SaveOutcome),
       s.state = "waiting_for_files" → s.uploadType = some "zip" →
       s.files = some fs → doc.file_size ≤ 50 * 1024 * 1024 →
       deployCompletes d sv = true →
       resultSession (on_document (some s) userId doc (.ok b64) d sv) = some none) := by
  constructor
  · intro s fs userId d sv hfs hne
    have hlen : ¬ fs.length = 0 := by simpa using hne
    cases d <;> cases sv <;> simp [finish_upload, hfs, hlen, resultSession]
  · intro s userId doc b64 fs d sv hstate hmode hfs hsize hcomp
    have hns : ¬ doc.file_size > 50 * 1024 * 1024 := not_lt.mpr hsize
    cases d with
    | ok slug url =>
      cases sv with
      | ok => simp [on_document, hstate, hmode, hfs, hns, resultSession]
      | threw m => simp [deployCompletes] at hcomp
    | notOk e => simp [on_document, hstate, hmode, hfs, hns, resultSession]
    | transportError m => simp [deployCompletes] at hcomp

/-- Witness for C1 (amended): a MultiFile finalize under a transport
error clears the session, and an Archive auto-finalize whose deploy
reports ok=false clears the session. -/
theorem C1_amended_witness :
    resultSession (finish_upload
        (some ⟨"waiting_for_files", some "multiple",
               some [⟨"a.html", "PGh0bWw+"⟩], some "w1"⟩)
        11 (.transportError "t") .ok) = some none
    ∧ resultSession (on_document
        (some ⟨"waiting_for_files", some "zip", some [], some "w2"⟩)
        12 ⟨"b.zip", 4096⟩ (.ok "Wg==") (.notOk "name taken") .ok) = some none :=
  ⟨C1_amended.1 ⟨"waiting_for_files", some "multiple",
       some [⟨"a.html", "PGh0bWw+"⟩], some "w1"⟩
     [⟨"a.html", "PGh0bWw+"⟩] 11 (.transportError "t") .ok rfl (by decide),
   C1_amended.2 ⟨"waiting_for_files", some "zip", some [], some "w2"⟩
     12 ⟨"b.zip", 4096⟩ "Wg==" [] (.notOk "name taken") .ok
     rfl rfl rfl (by norm_num) (by decide)⟩

/-- C4 (amended): in Archive mode a single submission within the size
cap triggers deploy exactly once, with the session's siteName and
exactly that one staged file; the session is reset to Idle whenever the
deploy attempt completes without a throw (ok with successful save, or
ok=false) — a transport error or save throw leaves it staged (see the
counterexample); and a submission with no active session is rejected
with the no-active-session notice, staging nothing. -/
theorem C4_amended :
    (∀ (s : Session) (userId : Int) (doc : TgDocument) (b64 : String)
       (d : DeployOutcome) (sv : SaveOutcome),
       s.state = "waiting_for_files" → s.uploadType = some "zip" →
       s.files = some [] → doc.file_size ≤ 50 * 1024 * 1024 →
       (resultEffects (on_document (some s) userId doc (.ok b64) d sv)).map deployCalls
           = some [⟨s.siteName, [⟨doc.file_name, b64⟩]⟩]
       ∧ (deployCompletes d sv = true →
           resultSession (on_document (some s) userId doc (.ok b64) d sv) = some none))
    ∧ (∀ (userId : Int) (doc : TgDocument) (dl : DownloadOutcome)
         (d : DeployOutcome) (sv : SaveOutcome),
       on_document none userId doc dl d sv = .ok ⟨none, [.reply noActiveSessionMsg]⟩) := by
  constructor
  · intro s userId doc b64 d sv hstate hmode hfs hsize
    have hns : ¬ doc.file_size > 50 * 1024 * 1024 := not_lt.mpr hsize
    constructor
    · cases d with
      | ok slug url =>
        cases sv <;> simp [on_document, hstate, hmode, hfs, hns, resultEffects, deployCalls]
      | notOk e =>
        simp [on_document, hstate, hmode, hfs, hns, resultEffects, deployCalls]
      | transportError m =>
        simp [on_document, hstate, hmode, hfs, hns, resultEffects, deployCalls]
    · intro hcomp
      cases d with
      | ok slug url =>
        cases sv with
        | ok => simp [on_document, hstate, hmode, hfs, hns, resultSession]
        | threw m => simp [deployCompletes] at hcomp
      | notOk e => simp [on_document, hstate, hmode, hfs, hns, resultSession]
      | transportError m => simp [deployCompletes] at hcomp
  · intro userId doc dl d sv
    rfl

/-- Witness for C4 (amended): a single in-cap archive submission with a
successful deploy and save, and a follow-up submission with no
session. -/
theorem C4_amended_witness :
    ((resultEffects (on_document
          (some ⟨"waiting_for_files", some "zip", some [], some "w4"⟩)
          13 ⟨"site.zip", 777⟩ (.ok "QUJD")
          (.ok "w4-slug" "https://h/w4-slug") .ok)).map deployCalls
        = some [⟨some "w4", [⟨"site.zip", "QUJD"⟩]⟩]
      ∧ (deployCompletes (.ok "w4-slug" "https://h/w4-slug") .ok = true →
          resultSession (on_document
            (some ⟨"waiting_for_files", some "zip", some [], some "w4"⟩)
            13 ⟨"site.zip", 777⟩ (.ok "QUJD")
            (.ok "w4-slug" "https://h/w4-slug") .ok) = some none))
    ∧ on_document none 13 ⟨"second.zip", 10⟩ (.ok "QQ==")
        (.ok "s" "u") .ok = .ok ⟨none, [.reply noActiveSessionMsg]⟩ :=
  ⟨C4_amended.1 ⟨"waiting_for_files", some "zip", some [], some "w4"⟩
     13 ⟨"site.zip", 777⟩ "QUJD" (.ok "w4-slug" "https://h/w4-slug") .ok
     rfl rfl rfl (by norm_num),
   C4_amended.2 13 ⟨"second.zip", 10⟩ (.ok "QQ==") (.ok "s" "u") .ok⟩

/-- C6: in `finish_upload` the record-store save is invoked exactly when
the deploy returns ok=true, and then with owner = the session's user id,
name = the session's siteName, the server-returned slug and url, and
filesCount = the number of staged files; on ok=false no save happens
and the server-provided error message is surfaced; on a transport throw
no save happens either. -/
theorem C6_save_iff_ok (s : Session) (fs : List StagedFile) (userId : Int)
    (sv : SaveOutcome) (hfs : s.files = some fs) (hne : fs ≠ []) :
    (∀ slug url,
        (resultEffects (finish_upload (some s) userId (.ok slug url) sv)).map saveCalls
          = some [⟨userId, s.siteName, slug, url, fs.length⟩])
    ∧ (∀ e, finish_upload (some s) userId (.notOk e) sv
          = .ok ⟨none, [.answerCb deployingCbMsg, .editMessage deployWaitMsg,
                        .deployCall ⟨s.siteName, fs⟩,
                        .editMessage (deployFailedBusinessMsg e)]⟩)
    ∧ (∀ m, (resultEffects (finish_upload (some s) userId (.transportError m) sv)).map saveCalls
          = some []) := by
  have hlen : ¬ fs.length = 0 := by simpa using hne
  refine ⟨?_, ?_, ?_⟩
  · intro slug url
    cases sv <;> simp [finish_upload, hfs, hlen, resultEffects, saveCalls]
  · intro e
    simp [finish_upload, hfs, hlen]
  · intro m
    simp [finish_upload, hfs, hlen, resultEffects, saveCalls]

/-- Witness for C6 on a two-file session. -/
theorem C6_witness :
    ((resultEffects (finish_upload
          (some ⟨"waiting_for_files", some "multiple",
                 some [⟨"index.html", "QQ=="⟩, ⟨"app.js", "Qg=="⟩], some "w6"⟩)
          31 (.ok "w6-slug" "https://h/w6-slug") .ok)).map saveCalls
        = some [⟨31, some "w6", "w6-slug", "https://h/w6-slug", 2⟩])
    ∧ ((resultEffects (finish_upload
          (some ⟨"waiting_for_files", some "multiple",
                 some [⟨"index.html", "QQ=="⟩, ⟨"app.js", "Qg=="⟩], some "w6"⟩)
          31 (.transportError "timeout") .ok)).map saveCalls = some []) :=
  ⟨(C6_save_iff_ok ⟨"waiting_for_files", some "multiple",
        some [⟨"index.html", "QQ=="⟩, ⟨"app.js", "Qg=="⟩], some "w6"⟩
      [⟨"index.html", "QQ=="⟩, ⟨"app.js", "Qg=="⟩] 31 .ok rfl (by decide)).1
      "w6-slug" "https://h/w6-slug",
   (C6_save_iff_ok ⟨"waiting_for_files", some "multiple",
        some [⟨"index.html", "QQ=="⟩, ⟨"app.js", "Qg=="⟩], some "w6"⟩
      [⟨"index.html", "QQ=="⟩, ⟨"app.js", "Qg=="⟩] 31 .ok rfl (by decide)).2.2
      "timeout"⟩

/-- C7: in `waiting_for_name`, a text whose trimmed form starts with the
command prefix is a pure no-op (no reply, session unchanged); any other
text sets `siteName` to the trimmed text and moves the session to
`waiting_for_files`; afterwards `siteName` is never changed — the text
handler ignores a `waiting_for_files` session, and the document and
finish-upload handlers preserve `siteName` in every surviving
session. -/
theorem C7_submit_name :
    (∀ (s : Session) (adm : Bool) (text : String) (b1 b2 b3 b4 : Bool),
       s.state = "waiting_for_name" → jsStartsWithSlash (jsTrim text) = true →
       on_text (some s) adm text b1 b2 b3 b4 = ⟨some s, []⟩)
    ∧ (∀ (s : Session) (adm : Bool) (text : String) (b1 b2 b3 b4 : Bool),
       s.state = "waiting_for_name" → jsStartsWithSlash (jsTrim text) = false →
       (on_text (some s) adm text b1 b2 b3 b4).session
         = some { s with siteName := some (jsTrim text), state := "waiting_for_files" })
    ∧ (∀ (s : Session) (adm : Bool) (text : String) (b1 b2 b3 b4 : Bool),
       s.state = "waiting_for_files" →
       on_text (some s) adm text b1 b2 b3 b4 = ⟨some s, []⟩)
    ∧ (∀ (s s2 : Session) (userId : Int) (doc : TgDocument) (dl : DownloadOutcome)
         (d : DeployOutcome) (sv : SaveOutcome) (r : HandlerResult),
       on_document (some s) userId doc dl d sv = .ok r → r.session = some s2 →
       s2.siteName = s.siteName)
    ∧ (∀ (s s2 : Session) (userId : Int) (d : DeployOutcome) (sv : SaveOutcome)
         (r : HandlerResult),
       finish_upload (some s) userId d sv = .ok r → r.session = some s2 →
       s2 = s) := by
  refine ⟨?_, ?_, ?_, ?_, ?_⟩
  · intro s adm text b1 b2 b3 b4 hstate hslash
    simp [on_text, hstate, hslash]
  · intro s adm text b1 b2 b3 b4 hstate hslash
    simp [on_text, hstate, hslash]
    split <;> rfl
  · intro s adm text b1 b2 b3 b4 hstate
    simp [on_text, hstate]
  · intro s s2 userId doc dl d sv r h hs2
    unfold on_document at h
    repeat' split at h
    all_goals simp only [Except.ok.injEq, reduceCtorEq] at h
    all_goals subst h
    all_goals simp_all
    all_goals subst hs2
    all_goals rfl
  · intro s s2 userId d sv r h hs2
    unfold finish_upload at h
    repeat' split at h
    all_goals simp only [Except.ok.injEq, reduceCtorEq] at h
    all_goals subst h
    all_goals simp_all

/-- Witness for C7: a stray command is ignored, a plain name is
stored. -/
theorem C7_witness :
    on_text (some ⟨"waiting_for_name", some "zip", some [], none⟩)
        false "/start" false false false false
      = ⟨some ⟨"waiting_for_name", some "zip", some [], none⟩, []⟩
    ∧ (on_text (some ⟨"waiting_for_name", some "zip", some [], none⟩)
        false "My Portfolio" false false false false).session
      = some ⟨"waiting_for_files", some "zip", some [], some "My Portfolio"⟩ :=
  ⟨C7_submit_name.1 ⟨"waiting_for_name", some "zip", some [], none⟩
      false "/start" false false false false rfl (by decide),
   by
     have h := C7_submit_name.2.1 ⟨"waiting_for_name", some "zip", some [], none⟩
       false "My Portfolio" false false false false rfl (by decide)
     exact h.trans rfl⟩

/-- One MultiFile-mode staging step: a document within the size cap whose
download succeeds is appended to `files` (and only `files` changes);
no deploy happens. -/
theorem on_document_multi_step (s : Session) (fs : List StagedFile) (userId : Int)
    (doc : TgDocument) (b64 : String) (d : DeployOutcome) (sv : SaveOutcome)
    (hstate : s.state = "waiting_for_files") (hmode : s.uploadType = some "multiple")
    (hfs : s.files = some fs) (hsize : doc.file_size ≤ 50 * 1024 * 1024) :
    on_document (some s) userId doc (.ok b64) d sv =
      .ok ⟨some { s with files := some (fs ++ [⟨doc.file_name, b64⟩]) },
           [.reply (downloadingMsg doc.file_name), .deleteMessage,
            .reply (fileUploadedMsg doc.file_name doc.file_size (fs.length + 1))]⟩ := by
  have hns : ¬ doc.file_size > 50 * 1024 * 1024 := not_lt.mpr hsize
  simp [on_document, hstate, hmode, hfs, hns]

/-- Running any number of MultiFile staging steps appends the submissions
to `files` in submission order and issues no deploy call. -/
theorem runDocs_multi_staging (userId : Int) (d : DeployOutcome) (sv : SaveOutcome) :
    ∀ (subs : List (TgDocument × String)) (s : Session) (fs : List StagedFile),
      s.state = "waiting_for_files" → s.uploadType = some "multiple" →
      s.files = some fs →
      (∀ p ∈ subs, p.1.file_size ≤ 50 * 1024 * 1024) →
      ∃ effs, runDocs (some s) userId subs d sv
          = .ok (some { s with files := some (fs ++ subs.map stage) }, effs)
        ∧ deployCalls effs = [] := by
  intro subs
  induction subs with
  | nil =>
    intro s fs _ _ hfs _
    refine ⟨[], ?_, rfl⟩
    obtain ⟨st, ut, fl, sn⟩ := s
    simp only [Session.mk.injEq] at hfs ⊢
    simp [runDocs, hfs]
  | cons p rest ih =>
    intro s fs hstate hmode hfs hsizes
    obtain ⟨doc, b64⟩ := p
    have hsize : doc.file_size ≤ 50 * 1024 * 1024 := hsizes (doc, b64) (by simp)
    have hstep := on_document_multi_step s fs userId doc b64 d sv hstate hmode hfs hsize
    obtain ⟨effs, hrun, hdc⟩ :=
      ih { s with files := some (fs ++ [⟨doc.file_name, b64⟩]) }
        (fs ++ [⟨doc.file_name, b64⟩]) (by simpa using hstate) (by simpa using hmode) rfl
        (fun q hq => hsizes q (by simp [hq]))
    refine ⟨[.reply (downloadingMsg doc.file_name), .deleteMessage,
             .reply (fileUploadedMsg doc.file_name doc.file_size (fs.length + 1))] ++ effs,
            ?_, ?_⟩
    · simp only [runDocs, hstep, hrun]
      simp [stage]
    · simp [deployCalls, List.filterMap_append] at hdc ⊢
      exact hdc

/-- C5: in one MultiFile conversation — `upload_files`, a site-name
message, any non-empty sequence of in-cap submissions, then
`finish_upload` — the deploy operation is invoked exactly once, with the
staged files exactly in submission order. -/
theorem C5_multi_deploy_once_ordered (nameText : String) (userId : Int) (adm : Bool)
    (subs : List (TgDocument × String)) (d : DeployOutcome) (sv : SaveOutcome)
    (hname : jsStartsWithSlash (jsTrim nameText) = false)
    (hsubs : subs ≠ [])
    (hsizes : ∀ p ∈ subs, p.1.file_size ≤ 50 * 1024 * 1024) :
    (multiScenario nameText userId adm subs d sv).map (fun r => deployCalls r.2)
      = .ok [⟨some (jsTrim nameText), subs.map stage⟩] := by
  have h1 : on_text (some ⟨"waiting_for_name", some "multiple", some [], none⟩)
      adm nameText false false false false
      = ⟨some ⟨"waiting_for_files", some "multiple", some [], some (jsTrim nameText)⟩,
         [.reply (multiNamePromptMsg (jsTrim nameText))]⟩ := by
    simp [on_text, hname]
  obtain ⟨effs2, hrun, hdc⟩ := runDocs_multi_staging userId d sv subs
      ⟨"waiting_for_files", some "multiple", some [], some (jsTrim nameText)⟩ []
      rfl rfl rfl hsizes
  have hlen : ¬ (subs.map stage).length = 0 := by
    simp only [List.length_map, List.length_eq_zero]
    exact hsubs
  have hdcAll : ∀ a ∈ effs2,
      (match a with | Effect.deployCall r => some r | _ => none) = none := by
    simpa [deployCalls, List.filterMap_eq_nil_iff] using hdc
  simp only [multiScenario, upload_files_action, h1]
  rw [hrun]
  cases d with
  | ok slug url =>
    cases sv <;>
      simp [finish_upload, hlen, hsubs, Except.map, deployCalls, List.filterMap_append] <;>
        exact hdcAll
  | notOk e =>
    simp [finish_upload, hlen, hsubs, Except.map, deployCalls, List.filterMap_append]
    exact hdcAll
  | transportError m =>
    simp [finish_upload, hlen, hsubs, Except.map, deployCalls, List.filterMap_append]
    exact hdcAll

/-- Witness for C5: three files submitted, deploy invoked once with the
three files in order. -/
theorem C5_witness :
    (multiScenario "My Site" 3 false
        [(⟨"index.html", 10⟩, "QQ=="), (⟨"style.css", 20⟩, "Qg=="), (⟨"app.js", 30⟩, "Qw==")]
        (.ok "my-site-1" "https://h/my-site-1") .ok).map (fun r => deployCalls r.2)
      = .ok [⟨some "My Site",
             [⟨"index.html", "QQ=="⟩, ⟨"style.css", "Qg=="⟩, ⟨"app.js", "Qw=="⟩]⟩] := by
  have h := C5_multi_deploy_once_ordered "My Site" 3 false
      [(⟨"index.html", 10⟩, "QQ=="), (⟨"style.css", 20⟩, "Qg=="), (⟨"app.js", 30⟩, "Qw==")]
      (.ok "my-site-1" "https://h/my-site-1") .ok (by decide) (by decide) (by decide)
  exact h.trans rfl
